import Mathlib

/-!
Shallow embedding of the wi-alerts uptime watcher
(`app/uptimerobot_v3_watcher.py`) and proofs about its stateful
detection-and-reporting engine.

Modelling conventions:
* UTC instants are integers counting microseconds since an arbitrary
  epoch — exactly the resolution of Python `datetime`.  A difference of
  instants `d` corresponds to `timedelta.total_seconds() = d / 10^6`
  (taken exact, ignoring IEEE rounding of the float), so a source
  comparison `delta.total_seconds() < s` with an integer `s` is
  translated to the equivalent integer comparison `d < s * 10^6`, and
  `int(delta.total_seconds())` is `d` divided by `10^6` truncating
  toward zero.
* Local wall-clock time is a natural number of minutes since a local
  epoch that falls on a Monday at 00:00, so `weekday()`, `.hour`,
  `.minute` and the Monday-00:00 week start of `_start_of_week_local`
  become arithmetic on that counter.
* The JSON state dict becomes a typed record.  String-encoded
  timestamps that the code round-trips through `_iso` / `_parse_iso`
  are stored directly as their parsed values; a missing or unparseable
  entry is `none`.
* `send_whatsapp_text` is an external collaborator: each potential send
  in a cycle carries a boolean input telling whether the transport
  succeeds or raises `BlibsendError`.  The alert title and body never
  influence control flow and are dropped.
* All `now_utc()` calls inside one loop iteration are modelled as the
  same instant (the cycle's `nowUtc` input).
-/

namespace Watcher

/-- Microseconds per second: the scale between modelled UTC instants
and the second-valued intervals of the configuration. -/
def usPerSec : ℤ := 1000000

/-- Python `int(...)` on a rational: truncation toward zero.  On a
normalised rational this is T-division of numerator by denominator. -/
def pyTrunc (q : ℚ) : ℤ := Int.tdiv q.num (q.den : ℤ)

/-- Minutes-since-local-epoch encoding of `dt_local.weekday()`
(0 = Monday, the epoch weekday). -/
def weekdayOf (m : ℕ) : ℕ := m / 1440 % 7

/-- Minutes-since-local-epoch encoding of `dt_local.hour`. -/
def hourOf (m : ℕ) : ℕ := m % 1440 / 60

/-- Minutes-since-local-epoch encoding of `dt_local.minute`. -/
def minuteOf (m : ℕ) : ℕ := m % 60

/-- `_start_of_week_local`: Monday 00:00 of the week containing the
given local instant.  With the local epoch on a Monday 00:00 this is
flooring to a multiple of `7*24*60 = 10080` minutes. -/
def startOfWeek (m : ℕ) : ℕ := m / 10080 * 10080

/-- The `Config` dataclass.  String-typed fields that never influence
the engine's control flow (token, monitor id, base url, alert
recipient, timezone name) are omitted.  Interval fields keep the
source's units (seconds resp. minutes). -/
structure Config where
  watchIntervalS : ℤ
  slowMsThreshold : ℤ
  slowConsecutive : ℤ
  uptime24hMin : ℚ
  uptime7dMin : ℚ
  uptimeCheckEveryMinutes : ℤ
  alertMinIntervalS : ℤ
  recoverBypassRateLimit : Bool
  weeklyReportEnabled : Bool
  weeklyReportWeekday : ℕ
  weeklyReportHour : ℕ
  weeklyReportMinute : ℕ
deriving DecidableEq

/-- The rational 199/2 = 99.5 in normal form (kept as an explicit
normalised value so that comparisons against it compute). -/
def q995 : ℚ := ⟨199, 2, by decide, by decide⟩

/-- The dataclass defaults of `Config` (`uptime_24h_min = 99.5`,
`uptime_7d_min = 99.0`). -/
def defaultConfig : Config where
  watchIntervalS := 60
  slowMsThreshold := 2500
  slowConsecutive := 3
  uptime24hMin := q995
  uptime7dMin := 99
  uptimeCheckEveryMinutes := 60
  alertMinIntervalS := 900
  recoverBypassRateLimit := true
  weeklyReportEnabled := true
  weeklyReportWeekday := 0
  weeklyReportHour := 9
  weeklyReportMinute := 0

/-- The `state["weekly"]` bucket dict. -/
structure Weekly where
  weekStartLocal : ℕ
  incidents : ℤ
  downtimeSeconds : ℤ
  slowAlerts : ℤ
  respMinMs : Option ℤ
  respMaxMs : Option ℤ
  downStartedAtUtc : Option ℤ
  lastReportSentForStart : Option ℕ
deriving DecidableEq

/-- The durable watcher state dict.  `weekly = none` models a missing
or non-dict / unparseable bucket entry (the shapes `ensure_week_bucket`
replaces).  Purely diagnostic keys (`status`, `resp_ms`,
`last_check_at`) carry no control flow and are omitted. -/
structure WatcherState where
  isDown : Bool
  slowStreak : ℤ
  lastAlertSentAt : Option ℤ
  lastUptimeCheckAt : Option ℤ
  weekly : Option Weekly
  uptime24h : Option ℚ
  uptime7d : Option ℚ
deriving DecidableEq

/-- Result of `maybe_send`: the state after the call, whether the
message was forwarded to `send_whatsapp_text` (i.e. not dropped by the
rate limiter), and whether `save_state` ran (it runs exactly when the
transport succeeded). -/
structure MSRes where
  st : WatcherState
  forwarded : Bool
  persisted : Bool
deriving DecidableEq

/-- The rate-limit test of `maybe_send`: `last_alert_sent_at` parses
and `(now_utc() - last_dt).total_seconds() < cfg.alert_min_interval_s`,
i.e. the microsecond difference is below the interval scaled to
microseconds. -/
def rateLimited (cfg : Config) (st : WatcherState) (nowU : ℤ) : Bool :=
  match st.lastAlertSentAt with
  | some last => decide (nowU - last < cfg.alertMinIntervalS * usPerSec)
  | none => false

/-- `maybe_send`: drop silently when not bypassing and rate limited;
otherwise forward, and on transport success record
`last_alert_sent_at = now_utc` and persist.  On `BlibsendError`
(`sendOk = false`) the state is untouched and not persisted. -/
def maybe_send (cfg : Config) (st : WatcherState) (nowU : ℤ)
    (sendOk : Bool) (bypass : Bool) : MSRes :=
  if !bypass && rateLimited cfg st nowU then ⟨st, false, false⟩
  else if sendOk then ⟨{ st with lastAlertSentAt := some nowU }, true, true⟩
  else ⟨st, true, false⟩

/-- The zeroed bucket dict that `ensure_week_bucket` installs. -/
def freshBucket (ws : ℕ) : Weekly :=
  ⟨ws, 0, 0, 0, none, none, none, none⟩

/-- `ensure_week_bucket`: install a fresh bucket when the stored one is
missing/malformed or its `week_start_local` differs from the current
week start; otherwise leave the state untouched. -/
def ensure_week_bucket (m : ℕ) (st : WatcherState) : WatcherState :=
  let ws := startOfWeek m
  match st.weekly with
  | none => { st with weekly := some (freshBucket ws) }
  | some w =>
      if w.weekStartLocal ≠ ws then { st with weekly := some (freshBucket ws) }
      else st

/-- `update_weekly_metrics`: fold a present response time into the
bucket's running extrema. -/
def update_weekly_metrics (respMs : Option ℤ) (st : WatcherState) : WatcherState :=
  match st.weekly, respMs with
  | some w, some r =>
      let w1 := if (match w.respMinMs with
                    | none => true
                    | some mn => decide (r < mn)) then { w with respMinMs := some r } else w
      let w2 := if (match w1.respMaxMs with
                    | none => true
                    | some mx => decide (mx < r)) then { w1 with respMaxMs := some r } else w1
      { st with weekly := some w2 }
  | _, _ => st

/-- `mark_weekly_down_transition`: bump the incident counter and stamp
the outage start if none is recorded. -/
def mark_weekly_down_transition (nowU : ℤ) (st : WatcherState) : WatcherState :=
  match st.weekly with
  | none => st
  | some w =>
      let w1 := { w with incidents := w.incidents + 1 }
      let w2 := match w1.downStartedAtUtc with
                | none => { w1 with downStartedAtUtc := some nowU }
                | some _ => w1
      { st with weekly := some w2 }

/-- `mark_weekly_up_transition`: close the outage window — adding
`int((now_utc() - started).total_seconds())`, i.e. the microsecond
difference divided by `10^6` truncating toward zero — and clear the
outage start stamp. -/
def mark_weekly_up_transition (nowU : ℤ) (st : WatcherState) : WatcherState :=
  match st.weekly with
  | none => st
  | some w =>
      let w1 := match w.downStartedAtUtc with
                | some started =>
                    let add := Int.tdiv (nowU - started) usPerSec
                    { w with downtimeSeconds := w.downtimeSeconds + add, downStartedAtUtc := none }
                | none => { w with downStartedAtUtc := none }
      { st with weekly := some w1 }

/-- A bucket with its outage window closed: `secs` more downtime
seconds and the outage start stamp cleared (used to state the
downtime-accounting property). -/
def closedBucket (w : Weekly) (secs : ℤ) : Weekly :=
  { w with downtimeSeconds := w.downtimeSeconds + secs, downStartedAtUtc := none }

/-- `mark_weekly_slow_alert`: bump the slow-alert counter. -/
def mark_weekly_slow_alert (st : WatcherState) : WatcherState :=
  match st.weekly with
  | none => st
  | some w => { st with weekly := some { w with slowAlerts := w.slowAlerts + 1 } }

/-- `should_send_weekly_report`: the early-return chain of the source,
on the current local minute `m`.  The stored `week_start_local` string
is always truthy when present, so the Python guard
`week_start and last_sent_for == week_start` reduces to the marker
comparison. -/
def should_send_weekly_report (cfg : Config) (m : ℕ) (st : WatcherState) : Bool :=
  if !cfg.weeklyReportEnabled then false
  else if !(weekdayOf m == cfg.weeklyReportWeekday) then false
  else if !((hourOf m == cfg.weeklyReportHour) && (minuteOf m == cfg.weeklyReportMinute)) then false
  else
    match st.weekly with
    | none => false
    | some w =>
        if w.lastReportSentForStart == some w.weekStartLocal then false
        else true

/-- `send_weekly_report`: build the summary (text only, no control
flow), forward it through `maybe_send` with the rate limit bypassed,
then mark the bucket as reported for its own `week_start_local`
regardless of the transport outcome.  Returns the new state and
whether the message was forwarded.  (The early return on a non-dict
`weekly` entry collapses to the `none` bucket case; it is unreachable
from the loop, which only calls this after `should_send_weekly_report`
saw a bucket.) -/
def send_weekly_report (cfg : Config) (st : WatcherState) (nowU : ℤ)
    (sendOk : Bool) : WatcherState × Bool :=
  let r := maybe_send cfg st nowU sendOk true
  let marked := r.st.weekly.map
    (fun w => { w with lastReportSentForStart := some w.weekStartLocal })
  ({ r.st with weekly := marked }, r.forwarded)

/-- The DOWN detection of `run_loop`: start from `False`; a truthy
(non-empty) status string sets the verdict by vocabulary membership; a
present numeric status code then overrides with the legacy 8/9 codes. -/
def detectIsDown (statusText : Option String) (statusCode : Option ℤ) : Bool :=
  let d1 := match statusText with
    | some s => (s != "") && ([ "down", "seems_down", "paused", "unknown" ].contains s)
    | none => false
  match statusCode with
  | some c => (c == 8) || (c == 9)
  | none => d1

/-- One poll cycle's environment: the clock readings, the values the
snapshot extractors produce from the fetched payload, whether the fetch
itself succeeded (`probeOk = false` models `v3_get_monitor` raising, in
which case the cycle body after `ensure_week_bucket` is skipped by the
`except` handler), and the transport outcome of each potential send. -/
structure CycleInput where
  nowUtc : ℤ
  localNow : ℕ
  probeOk : Bool
  statusText : Option String
  statusCode : Option ℤ
  respMs : Option ℤ
  u24 : Option ℚ
  u7 : Option ℚ
  okDown : Bool
  okUp : Bool
  okSlow : Bool
  okU24 : Bool
  okU7 : Bool
  okWeekly : Bool
deriving DecidableEq

/-- Observable events of one cycle: which transitions were detected,
which alerts were emitted / forwarded, whether the uptime-ratio checks
ran, whether a weekly report send was attempted, and the week start the
cycle's bucket carries. -/
structure CycleLog where
  weekStart : ℕ
  downTransition : Bool
  upTransition : Bool
  outageFwd : Bool
  recoveryFwd : Bool
  recoveryDelivered : Bool
  slowEmitted : Bool
  slowFwd : Bool
  uptimeEvaluated : Bool
  u24Emitted : Bool
  u7Emitted : Bool
  weeklyAttempted : Bool
deriving DecidableEq

/-- The `is_slow` test of `run_loop`: a response time is present and
at least `slow_ms_threshold`. -/
def isSlowSample (cfg : Config) (respMs : Option ℤ) : Bool :=
  match respMs with
  | some r => decide (cfg.slowMsThreshold ≤ r)
  | none => false

/-- The Up→Down branch of `run_loop`: when taken, mark the bucket and
dispatch the outage alert (never bypassing). -/
def downBlock (cfg : Config) (nowU : ℤ) (doIt ok : Bool) (st : WatcherState) :
    WatcherState × Bool :=
  if doIt then
    let r := maybe_send cfg (mark_weekly_down_transition nowU st) nowU ok false
    (r.st, r.forwarded)
  else (st, false)

/-- The Down→Up branch of `run_loop`: when taken, close the outage
window and dispatch the recovery alert with
`bypass_rate_limit = cfg.recover_bypass_rate_limit`. -/
def upBlock (cfg : Config) (nowU : ℤ) (doIt ok : Bool) (st : WatcherState) :
    WatcherState × Bool :=
  if doIt then
    let r := maybe_send cfg (mark_weekly_up_transition nowU st) nowU ok
      cfg.recoverBypassRateLimit
    (r.st, r.forwarded)
  else (st, false)

/-- The consecutive-slowness branch of `run_loop`: when the streak hits
the threshold, count the slow alert, dispatch it, and zero the streak. -/
def slowBlock (cfg : Config) (nowU : ℤ) (hit ok : Bool) (streak : ℤ)
    (st : WatcherState) : WatcherState × ℤ × Bool :=
  if hit then
    let r := maybe_send cfg (mark_weekly_slow_alert st) nowU ok false
    (r.st, 0, r.forwarded)
  else (st, streak, false)

/-- The low-frequency uptime-ratio branch of `run_loop`: when due,
alert on each ratio below its minimum, then record the check time and
the latest ratios in the state.  (When both ratios are absent the code
only logs a diagnostic line.) -/
def uptimeBlock (cfg : Config) (nowU : ℤ) (doIt : Bool) (u24 u7 : Option ℚ)
    (ok24 ok7 : Bool) (st : WatcherState) : WatcherState × Bool × Bool :=
  if doIt then
    let e24 := match u24 with
      | some u => decide (u < cfg.uptime24hMin)
      | none => false
    let e7 := match u7 with
      | some u => decide (u < cfg.uptime7dMin)
      | none => false
    let s1 := if e24 then (maybe_send cfg st nowU ok24 false).st else st
    let s2 := if e7 then (maybe_send cfg s1 nowU ok7 false).st else s1
    ({ s2 with lastUptimeCheckAt := some nowU, uptime24h := u24, uptime7d := u7 }, e24, e7)
  else (st, false, false)

/-- The weekly-summary branch of `run_loop`: when
`should_send_weekly_report` fires, run `send_weekly_report`.  The
returned boolean records that a report send was attempted. -/
def weeklyBlock (cfg : Config) (m : ℕ) (nowU : ℤ) (ok : Bool)
    (st : WatcherState) : WatcherState × Bool :=
  if should_send_weekly_report cfg m st then
    ((send_weekly_report cfg st nowU ok).1, true)
  else (st, false)

/-- The loop-carried data of `run_loop`: the state dict, the
`slow_streak` local, and the `last_uptime_check` local — the latter is
read from the state once before the loop and never refreshed inside
it. -/
structure LoopState where
  st : WatcherState
  slowStreak : ℤ
  lastUptimeCheck0 : Option ℤ
deriving DecidableEq

/-- The `run_loop` preamble: seed the loop locals from the loaded
state. -/
def initLoopState (st : WatcherState) : LoopState :=
  ⟨st, st.slowStreak, st.lastUptimeCheckAt⟩

/-- The body of one successful iteration of `run_loop` (the fetch did
not raise), after `ensure_week_bucket` has already run. -/
def cycleRun (cfg : Config) (ls : LoopState) (inp : CycleInput) :
    LoopState × CycleLog :=
  let ws := startOfWeek inp.localNow
  let st0 := ensure_week_bucket inp.localNow ls.st
  let st1 := update_weekly_metrics inp.respMs st0
  let isDown := detectIsDown inp.statusText inp.statusCode
  let prevDown := st1.isDown
  let downT := isDown && !prevDown
  let upT := !isDown && prevDown
  let p2 := downBlock cfg inp.nowUtc downT inp.okDown st1
  let p3 := upBlock cfg inp.nowUtc upT inp.okUp p2.1
  let isSlow := isSlowSample cfg inp.respMs
  let streak1 : ℤ := if isSlow then ls.slowStreak + 1 else 0
  let slowHit := decide (0 < cfg.slowMsThreshold) && decide (cfg.slowConsecutive ≤ streak1)
  let p4 := slowBlock cfg inp.nowUtc slowHit inp.okSlow streak1 p3.1
  let doUptime := match ls.lastUptimeCheck0 with
    | some last => decide (cfg.uptimeCheckEveryMinutes * 60 * usPerSec ≤ inp.nowUtc - last)
    | none => true
  let p5 := uptimeBlock cfg inp.nowUtc doUptime inp.u24 inp.u7 inp.okU24 inp.okU7 p4.1
  let p6 := weeklyBlock cfg inp.localNow inp.nowUtc inp.okWeekly p5.1
  let stF := { p6.1 with isDown := isDown, slowStreak := p4.2.1 }
  (⟨stF, p4.2.1, ls.lastUptimeCheck0⟩,
   ⟨ws, downT, upT, p2.2, p3.2, p3.2 && inp.okUp, slowHit, p4.2.2, doUptime,
    p5.2.1, p5.2.2, p6.2⟩)

/-- One full iteration of `run_loop`: `ensure_week_bucket` always runs
first; if the fetch raises (`probeOk = false`) the rest of the body is
skipped by the `except` handler and the loop locals are carried over. -/
def cycle (cfg : Config) (ls : LoopState) (inp : CycleInput) :
    LoopState × CycleLog :=
  if inp.probeOk then cycleRun cfg ls inp
  else
    (⟨ensure_week_bucket inp.localNow ls.st, ls.slowStreak, ls.lastUptimeCheck0⟩,
     ⟨startOfWeek inp.localNow, false, false, false, false, false, false, false,
      false, false, false, false⟩)

/-- A run of successive loop iterations over a list of cycle
environments, collecting each cycle's log. -/
def runTrace (cfg : Config) : LoopState → List CycleInput → List CycleLog
  | _, [] => []
  | ls, inp :: rest => (cycle cfg ls inp).2 :: runTrace cfg (cycle cfg ls inp).1 rest

/-- JSON-like values, as the payload extractors see them.  A string
carries alongside its text the result Python `float(...)` would give
on it (`none` when parsing raises), since the embedding does not model
Python's float grammar itself. -/
inductive JVal where
  | jnull : JVal
  | jbool : Bool → JVal
  | jnum : ℚ → JVal
  | jstr : String → Option ℚ → JVal
  | jobj : List (String × JVal) → JVal
  | jarr : List JVal → JVal

/-- Python truthiness of a JSON value (what `if x:` and `x or y`
test). -/
def truthy : JVal → Bool
  | .jnull => false
  | .jbool b => b
  | .jnum q => !(q == 0)
  | .jstr s _ => !(s == "")
  | .jobj fs => !fs.isEmpty
  | .jarr xs => !xs.isEmpty

/-- `dict.get(k)`: the value of the first binding of `k`, if any. -/
def dget (fs : List (String × JVal)) (k : String) : Option JVal :=
  (fs.find? (fun kv => kv.1 == k)).map (fun kv => kv.2)

/-- Python `a or b` on optional JSON values (`None` and falsy values
fall through to the right operand, which is returned as-is). -/
def pyOr (a b : Option JVal) : Option JVal :=
  match a with
  | some v => if truthy v then some v else b
  | none => b

/-- `_try_float`: `float(x)`, with `None` and coercion failures giving
`None`.  Booleans coerce as 1/0 (Python bool is an int subtype). -/
def tryFloat : Option JVal → Option ℚ
  | some (.jbool b) => some (if b then 1 else 0)
  | some (.jnum q) => some q
  | some (.jstr _ v) => v
  | _ => none

/-- `_try_int`: `int(float(x))`, i.e. the float coercion truncated
toward zero, with failures giving `None`. -/
def tryInt (x : Option JVal) : Option ℤ := (tryFloat x).map pyTrunc

/-- `monitor_obj`: unwrap `payload["monitor"]` when it is a dict,
otherwise return the payload itself.  (`v3_get_monitor` guarantees the
payload is a dict.) -/
def monitor_obj (p : List (String × JVal)) : List (String × JVal) :=
  match dget p "monitor" with
  | some (.jobj m) => m
  | _ => p

/-- The `for key in (...)` probe loop of `extract_response_time_ms`:
return the first candidate key whose value coerces via `_try_int`. -/
def probeIntKeys (mon : List (String × JVal)) : List String → Option ℤ
  | [] => none
  | k :: ks =>
      match tryInt (dget mon k) with
      | some ms => some ms
      | none => probeIntKeys mon ks

/-- `extract_response_time_ms`: probe the top-level candidate keys,
then fall back to the `stats`/`metrics` sub-object (selected with
Python `or`) and its candidate keys. -/
def extract_response_time_ms (p : List (String × JVal)) : Option ℤ :=
  let mon := monitor_obj p
  match probeIntKeys mon
      [ "response_time", "responseTime", "avg_response_time", "avgResponseTime",
        "last_response_time" ] with
  | some ms => some ms
  | none =>
      match pyOr (dget mon "stats") (dget mon "metrics") with
      | some (.jobj stats) =>
          probeIntKeys stats [ "response_time", "avg_response_time", "avgResponseTime" ]
      | _ => none

/-- `extract_uptime_ratios`: each ratio candidate list is collapsed
with Python `or` before the single `_try_float` coercion; when both
top-level results are `None`, fall back to the `uptime`/`ratios`/
`uptime_ratios` sub-object (again selected with `or`). -/
def extract_uptime_ratios (p : List (String × JVal)) : Option ℚ × Option ℚ :=
  let mon := monitor_obj p
  let u24 := tryFloat (pyOr (dget mon "uptime_24h") (pyOr (dget mon "uptime24h") (dget mon "uptime_1d")))
  let u7 := tryFloat (pyOr (dget mon "uptime_7d") (pyOr (dget mon "uptime7d") (dget mon "uptime_7days")))
  if u24.isSome || u7.isSome then (u24, u7)
  else
    match pyOr (dget mon "uptime") (pyOr (dget mon "ratios") (dget mon "uptime_ratios")) with
    | some (.jobj ratios) =>
        (tryFloat (pyOr (dget ratios "24h") (dget ratios "1d")),
         tryFloat (pyOr (dget ratios "7d") (dget ratios "7days")))
    | _ => (none, none)

/-- First non-`None` element of a list of optionals: the spec-side
"first present, numeric-coercible candidate wins" selector. -/
def firstSome {α : Type} : List (Option α) → Option α
  | [] => none
  | x :: xs =>
      match x with
      | some v => some v
      | none => firstSome xs

/-- First truthy element of a list of optional JSON values, falling
back to the last element's lookup result when none is truthy — the
exact semantics of a Python `a or b or c` chain over `dict.get`
results. -/
def firstTruthyOrLast : List (Option JVal) → Option JVal
  | [] => none
  | [x] => x
  | x :: xs =>
      match x with
      | some v => if truthy v then some v else firstTruthyOrLast xs
      | none => firstTruthyOrLast xs

/-- Response-time extraction as the specification words it: the first
candidate field, in the fixed order, that is present and
numeric-coercible wins — first at the top level, then inside the
`stats`/`metrics` sub-object. -/
def specResponseTime (p : List (String × JVal)) : Option ℤ :=
  let mon := monitor_obj p
  match firstSome
      [ tryInt (dget mon "response_time"), tryInt (dget mon "responseTime"),
        tryInt (dget mon "avg_response_time"), tryInt (dget mon "avgResponseTime"),
        tryInt (dget mon "last_response_time") ] with
  | some ms => some ms
  | none =>
      match pyOr (dget mon "stats") (dget mon "metrics") with
      | some (.jobj stats) =>
          firstSome
            [ tryInt (dget stats "response_time"), tryInt (dget stats "avg_response_time"),
              tryInt (dget stats "avgResponseTime") ]
      | _ => none

/-- Uptime-ratio extraction as amended: within each candidate list the
first truthy value wins (falling back to the last candidate's lookup
result), and only that winner is float-coerced; when both top-level
results are absent, the nested sub-object — selected the same way — is
probed. -/
def specUptimeRatios (p : List (String × JVal)) : Option ℚ × Option ℚ :=
  let mon := monitor_obj p
  let u24 := tryFloat (firstTruthyOrLast
    [ dget mon "uptime_24h", dget mon "uptime24h", dget mon "uptime_1d" ])
  let u7 := tryFloat (firstTruthyOrLast
    [ dget mon "uptime_7d", dget mon "uptime7d", dget mon "uptime_7days" ])
  if u24.isSome || u7.isSome then (u24, u7)
  else
    match firstTruthyOrLast
        [ dget mon "uptime", dget mon "ratios", dget mon "uptime_ratios" ] with
    | some (.jobj ratios) =>
        (tryFloat (firstTruthyOrLast [ dget ratios "24h", dget ratios "1d" ]),
         tryFloat (firstTruthyOrLast [ dget ratios "7d", dget ratios "7days" ]))
    | _ => (none, none)

/-- A payload whose first uptime candidate is present and numeric with
value 0, and whose second candidate is 50. -/
def payloadZero24 : List (String × JVal) :=
  [ ("uptime_24h", .jnum 0), ("uptime24h", .jnum 50) ]

/-- State for exercising the dispatcher and loop at concrete inputs:
currently marked down, a recent alert stamp, a fresh current-week
bucket. -/
def stDown : WatcherState :=
  ⟨true, 0, some 0, none, some (freshBucket 0), none, none⟩

/-- Cycle environment reporting status "up" at 500 s (in microseconds)
after the last alert, i.e. inside the default rate-limit window. -/
def inpRecover : CycleInput :=
  ⟨500 * usPerSec, 100, true, some "up", none, none, none, none,
   true, true, true, true, true, true⟩

/-- The default configuration with the recovery bypass flag disabled
(environment `RECOVER_BYPASS_RATE_LIMIT=0`). -/
def cfgNoBypass : Config :=
  { defaultConfig with recoverBypassRateLimit := false }

/-- A healthy state at the start of the current week: up, no alert
stamp, uptime check stamped at instant 0, fresh bucket. -/
def stBase : WatcherState :=
  ⟨false, 0, none, some 0, some (freshBucket 0), none, none⟩

/-- Cycle environment at local minute 0 whose probe reports status
"down" together with a 3000 ms response time. -/
def inpDownSlow : CycleInput :=
  ⟨0, 0, true, some "down", none, some 3000, none, none,
   true, true, true, true, true, true⟩

/-- Cycle environment `k` seconds into the run: status "up",
3000 ms response time. -/
def inpSlowAt (k : ℤ) : CycleInput :=
  ⟨k * usPerSec, 5, true, some "up", none, some 3000, none, none,
   true, true, true, true, true, true⟩

/-- Cycle environment `k` seconds into the run: status "up", healthy
uptime ratios of 100 %. -/
def inpUptimeAt (k : ℤ) : CycleInput :=
  ⟨k * usPerSec, 0, true, some "up", none, none, some 100, some 100,
   true, true, true, true, true, true⟩

/-- The report-identity view of a state: the bucket's
`week_start_local` together with its `last_weekly_report_sent_for_start`
marker (`none` when there is no bucket). -/
def wkey (st : WatcherState) : Option (ℕ × Option ℕ) :=
  st.weekly.map (fun w => (w.weekStartLocal, w.lastReportSentForStart))

/-- Cycle environment at local minute `m` and instant `k` seconds,
healthy and quiet except that minute 540 is the default report
minute. -/
def inpWeeklyAt (m : ℕ) (k : ℤ) (okW : Bool) : CycleInput :=
  ⟨k * usPerSec, m, true, some "up", none, none, none, none,
   true, true, true, true, true, okW⟩

theorem pyOr_pair (b c : Option JVal) : pyOr b c = firstTruthyOrLast [b, c] := by
  cases b with
  | none => rfl
  | some v =>
      simp only [pyOr, firstTruthyOrLast]

theorem pyOr_triple (a b c : Option JVal) :
    pyOr a (pyOr b c) = firstTruthyOrLast [a, b, c] := by
  cases a with
  | none => exact pyOr_pair b c
  | some v => simp only [pyOr, firstTruthyOrLast]

theorem probeIntKeys_eq_firstSome (mon : List (String × JVal)) (ks : List String) :
    probeIntKeys mon ks = firstSome (ks.map (fun k => tryInt (dget mon k))) := by
  induction ks with
  | nil => rfl
  | cons k ks ih =>
      simp only [probeIntKeys, List.map, firstSome]
      cases tryInt (dget mon k) with
      | none => simpa using ih
      | some v => rfl

theorem wkey_update (r : Option ℤ) (st : WatcherState) :
    wkey (update_weekly_metrics r st) = wkey st := by
  cases hw : st.weekly with
  | none => cases r <;> simp [update_weekly_metrics, hw]
  | some w =>
      cases hr : r with
      | none => simp [update_weekly_metrics, hw]
      | some v =>
          simp only [update_weekly_metrics, wkey, hw]
          split <;> split <;> rfl

theorem wkey_mark_down (nowU : ℤ) (st : WatcherState) :
    wkey (mark_weekly_down_transition nowU st) = wkey st := by
  cases hw : st.weekly with
  | none => simp [mark_weekly_down_transition, hw]
  | some w =>
      cases hd : w.downStartedAtUtc <;>
        simp [mark_weekly_down_transition, wkey, hw, hd]

theorem wkey_mark_up (nowU : ℤ) (st : WatcherState) :
    wkey (mark_weekly_up_transition nowU st) = wkey st := by
  cases hw : st.weekly with
  | none => simp [mark_weekly_up_transition, hw]
  | some w =>
      cases hd : w.downStartedAtUtc <;>
        simp [mark_weekly_up_transition, wkey, hw, hd]

theorem wkey_mark_slow (st : WatcherState) :
    wkey (mark_weekly_slow_alert st) = wkey st := by
  cases hw : st.weekly <;> simp [mark_weekly_slow_alert, wkey, hw]

theorem maybe_send_weekly (cfg : Config) (st : WatcherState) (nowU : ℤ)
    (ok byp : Bool) : (maybe_send cfg st nowU ok byp).st.weekly = st.weekly := by
  unfold maybe_send
  split
  · rfl
  · split <;> rfl

theorem wkey_maybe_send (cfg : Config) (st : WatcherState) (nowU : ℤ)
    (ok byp : Bool) : wkey (maybe_send cfg st nowU ok byp).st = wkey st := by
  unfold wkey
  rw [maybe_send_weekly]

theorem wkey_downBlock (cfg : Config) (nowU : ℤ) (d ok : Bool) (st : WatcherState) :
    wkey (downBlock cfg nowU d ok st).1 = wkey st := by
  unfold downBlock
  split
  · rw [wkey_maybe_send, wkey_mark_down]
  · rfl

theorem wkey_upBlock (cfg : Config) (nowU : ℤ) (d ok : Bool) (st : WatcherState) :
    wkey (upBlock cfg nowU d ok st).1 = wkey st := by
  unfold upBlock
  split
  · rw [wkey_maybe_send, wkey_mark_up]
  · rfl

theorem wkey_slowBlock (cfg : Config) (nowU : ℤ) (hit ok : Bool) (k : ℤ)
    (st : WatcherState) : wkey (slowBlock cfg nowU hit ok k st).1 = wkey st := by
  unfold slowBlock
  split
  · rw [wkey_maybe_send, wkey_mark_slow]
  · rfl

theorem wkey_uptimeBlock (cfg : Config) (nowU : ℤ) (d : Bool) (u24 u7 : Option ℚ)
    (ok24 ok7 : Bool) (st : WatcherState) :
    wkey (uptimeBlock cfg nowU d u24 u7 ok24 ok7 st).1 = wkey st := by
  unfold uptimeBlock
  split
  · simp only [wkey]
    split <;> split <;> simp [maybe_send_weekly]
  · rfl

theorem wkey_stFlags (st : WatcherState) (b : Bool) (k : ℤ) :
    wkey { st with isDown := b, slowStreak := k } = wkey st := rfl

theorem should_send_of_marked (cfg : Config) (m : ℕ) (st : WatcherState) (w : Weekly)
    (hw : st.weekly = some w) (hm : w.lastReportSentForStart = some w.weekStartLocal) :
    should_send_weekly_report cfg m st = false := by
  simp [should_send_weekly_report, hw, hm, ite_self]

theorem weeklyBlock_marks (cfg : Config) (m : ℕ) (nowU : ℤ) (ok : Bool)
    (st : WatcherState) (h : (weeklyBlock cfg m nowU ok st).2 = true) :
    wkey (weeklyBlock cfg m nowU ok st).1
      = (wkey st).map (fun a => (a.1, some a.1)) := by
  by_cases hs : should_send_weekly_report cfg m st = true
  · unfold weeklyBlock
    rw [if_pos hs]
    simp only [send_weekly_report, wkey, maybe_send_weekly]
    cases st.weekly <;> rfl
  · unfold weeklyBlock at h
    rw [if_neg hs] at h
    simp at h

theorem weeklyBlock_of_marked (cfg : Config) (m : ℕ) (nowU : ℤ) (ok : Bool)
    (st : WatcherState) (w0 : ℕ) (h : wkey st = some (w0, some w0)) :
    weeklyBlock cfg m nowU ok st = (st, false) := by
  obtain ⟨w, hw, hkey⟩ := Option.map_eq_some'.mp h
  have h1 : w.weekStartLocal = w0 := congrArg Prod.fst hkey
  have h2 : w.lastReportSentForStart = some w0 := congrArg Prod.snd hkey
  unfold weeklyBlock
  rw [should_send_of_marked cfg m st w hw (by rw [h1, h2])]
  simp

theorem ensure_of_marked (m : ℕ) (st : WatcherState) (w : Weekly)
    (hw : st.weekly = some w) (hws : w.weekStartLocal = startOfWeek m) :
    ensure_week_bucket m st = st := by
  simp [ensure_week_bucket, hw, hws]

theorem ensure_wkey (m : ℕ) (st : WatcherState) :
    ∃ x, wkey (ensure_week_bucket m st) = some (startOfWeek m, x) := by
  cases hw : st.weekly with
  | none => exact ⟨none, by simp [ensure_week_bucket, wkey, hw, freshBucket]⟩
  | some w =>
      by_cases hws : w.weekStartLocal = startOfWeek m
      · exact ⟨w.lastReportSentForStart, by simp [ensure_week_bucket, wkey, hw, hws]⟩
      · exact ⟨none, by simp [ensure_week_bucket, wkey, hw, hws, freshBucket]⟩

theorem cycle_weekStart (cfg : Config) (ls : LoopState) (inp : CycleInput) :
    (cycle cfg ls inp).2.weekStart = startOfWeek inp.localNow := by
  unfold cycle
  split
  · rfl
  · rfl

theorem cycle_attempt_marks (cfg : Config) (ls : LoopState) (inp : CycleInput)
    (h : (cycle cfg ls inp).2.weeklyAttempted = true) :
    wkey (cycle cfg ls inp).1.st
      = some (startOfWeek inp.localNow, some (startOfWeek inp.localNow)) := by
  by_cases hp : inp.probeOk = true
  · simp only [cycle, cycleRun, hp, if_true] at h ⊢
    simp only [wkey_stFlags]
    rw [weeklyBlock_marks _ _ _ _ _ h]
    simp only [wkey_uptimeBlock, wkey_slowBlock, wkey_upBlock, wkey_downBlock,
      wkey_update]
    obtain ⟨x, hx⟩ := ensure_wkey inp.localNow ls.st
    rw [hx]
    rfl
  · simp [cycle, hp] at h

theorem cycle_of_marked (cfg : Config) (ls : LoopState) (inp : CycleInput) (w0 : ℕ)
    (hm : wkey ls.st = some (w0, some w0)) (hws : startOfWeek inp.localNow = w0) :
    (cycle cfg ls inp).2.weeklyAttempted = false
    ∧ wkey (cycle cfg ls inp).1.st = some (w0, some w0) := by
  obtain ⟨w, hw, hkey⟩ := Option.map_eq_some'.mp hm
  have h1 : w.weekStartLocal = w0 := congrArg Prod.fst hkey
  have hen : ensure_week_bucket inp.localNow ls.st = ls.st :=
    ensure_of_marked inp.localNow ls.st w hw (by rw [h1, hws])
  by_cases hp : inp.probeOk = true
  · simp only [cycle, cycleRun, hp, if_true, hen]
    rw [weeklyBlock_of_marked cfg inp.localNow inp.nowUtc inp.okWeekly _ w0
      (by simp only [wkey_uptimeBlock, wkey_slowBlock, wkey_upBlock, wkey_downBlock,
            wkey_update]
          exact hm)]
    exact ⟨rfl, by rw [wkey_stFlags]
                   simp only [wkey_uptimeBlock, wkey_slowBlock, wkey_upBlock,
                     wkey_downBlock, wkey_update]
                   exact hm⟩
  · simp only [cycle, hp, Bool.false_eq_true, if_false, hen]
    exact ⟨trivial, hm⟩

theorem startOfWeek_mono {a b : ℕ} (h : a ≤ b) : startOfWeek a ≤ startOfWeek b :=
  Nat.mul_le_mul_right _ (Nat.div_le_div_right h)

theorem runTrace_ws (cfg : Config) :
    ∀ (is : List CycleInput) (ls : LoopState) (b : CycleLog),
      b ∈ runTrace cfg ls is → ∃ k ∈ is, b.weekStart = startOfWeek k.localNow := by
  intro is
  induction is with
  | nil => intro ls b hb; simp [runTrace] at hb
  | cons j js ih =>
      intro ls b hb
      simp only [runTrace, List.mem_cons] at hb
      rcases hb with hb | hb
      · exact ⟨j, List.mem_cons_self _ _, by rw [hb, cycle_weekStart]⟩
      · obtain ⟨k, hk, hkb⟩ := ih _ b hb
        exact ⟨k, List.mem_cons_of_mem _ hk, hkb⟩

theorem noResend (cfg : Config) (w0 : ℕ) :
    ∀ (is : List CycleInput) (ls : LoopState),
      wkey ls.st = some (w0, some w0) →
      (is.map (fun i => i.localNow)).Pairwise (fun a b => a ≤ b) →
      (∀ k ∈ is, w0 ≤ startOfWeek k.localNow) →
      ∀ b ∈ runTrace cfg ls is, b.weeklyAttempted = true → b.weekStart ≠ w0 := by
  intro is
  induction is with
  | nil => intro ls _ _ _ b hb; simp [runTrace] at hb
  | cons j js ih =>
      intro ls hm hpw hbound b hb hatt
      simp only [List.map, List.pairwise_cons] at hpw
      obtain ⟨hj, hpw2⟩ := hpw
      simp only [runTrace, List.mem_cons] at hb
      by_cases hws : startOfWeek j.localNow = w0
      · obtain ⟨hatt0, hm2⟩ := cycle_of_marked cfg ls j w0 hm hws
        rcases hb with hb | hb
        · rw [hb, hatt0] at hatt
          simp at hatt
        · exact ih (cycle cfg ls j).1 hm2 hpw2
            (fun k hk => hbound k (List.mem_cons_of_mem _ hk)) b hb hatt
      · rcases hb with hb | hb
        · rw [hb, cycle_weekStart]
          exact hws
        · have hjw : w0 < startOfWeek j.localNow :=
            lt_of_le_of_ne (hbound j (List.mem_cons_self _ _)) (fun e => hws e.symm)
          obtain ⟨k, hk, hkb⟩ := runTrace_ws cfg js (cycle cfg ls j).1 b hb
          have hmono : startOfWeek j.localNow ≤ startOfWeek k.localNow :=
            startOfWeek_mono (hj _ (List.mem_map_of_mem _ hk))
          rw [hkb]
          omega

theorem ws_map_eq (st : WatcherState) :
    st.weekly.map (fun w => w.weekStartLocal) = (wkey st).map (fun a => a.1) := by
  unfold wkey
  cases st.weekly <;> rfl

theorem wkey_fst_weeklyBlock (cfg : Config) (m : ℕ) (nowU : ℤ) (ok : Bool)
    (st : WatcherState) :
    (wkey (weeklyBlock cfg m nowU ok st).1).map (fun a => a.1)
      = (wkey st).map (fun a => a.1) := by
  unfold weeklyBlock
  split
  · simp only [send_weekly_report, wkey, maybe_send_weekly]
    cases st.weekly <;> rfl
  · rfl

theorem cycle_bucket_ws (cfg : Config) (ls : LoopState) (inp : CycleInput) :
    (cycle cfg ls inp).1.st.weekly.map (fun w => w.weekStartLocal)
      = some (startOfWeek inp.localNow) := by
  obtain ⟨x, hx⟩ := ensure_wkey inp.localNow ls.st
  by_cases hp : inp.probeOk = true
  · simp only [cycle, cycleRun, hp, if_true, ws_map_eq, wkey_stFlags,
      wkey_fst_weeklyBlock, wkey_uptimeBlock, wkey_slowBlock, wkey_upBlock,
      wkey_downBlock, wkey_update]
    rw [hx]
    rfl
  · simp only [cycle, hp, Bool.false_eq_true, if_false, ws_map_eq]
    rw [hx]
    rfl

/-- Claim C3: whenever a cycle attempts a weekly report send, the
bucket comes out marked `last_weekly_report_sent_for_start =
week_start_local` — for every transport outcome, since the cycle input
quantifies over it — and along any run whose local-clock readings are
monotone, no two cycles with the same bucket `week_start_local` both
attempt a report send: at most one weekly report per distinct week
start. -/
theorem C3_weekly_at_most_once :
    (∀ (cfg : Config) (ls : LoopState) (inp : CycleInput),
        (cycle cfg ls inp).2.weeklyAttempted = true →
        wkey (cycle cfg ls inp).1.st
          = some (startOfWeek inp.localNow, some (startOfWeek inp.localNow)))
    ∧ (∀ (cfg : Config) (ls : LoopState) (inputs : List CycleInput),
        (inputs.map (fun i => i.localNow)).Pairwise (fun a b => a ≤ b) →
        (runTrace cfg ls inputs).Pairwise
          (fun a b => a.weeklyAttempted = true → b.weeklyAttempted = true →
            a.weekStart ≠ b.weekStart)) := by
  constructor
  · exact cycle_attempt_marks
  · intro cfg ls inputs
    induction inputs generalizing ls with
    | nil => intro _; simp [runTrace]
    | cons i is ih =>
        intro hpw
        simp only [List.map, List.pairwise_cons] at hpw
        obtain ⟨hi, hpw2⟩ := hpw
        simp only [runTrace, List.pairwise_cons]
        refine ⟨?_, ih _ hpw2⟩
        intro b hb hatt hbat
        have hm := cycle_attempt_marks cfg ls i hatt
        rw [cycle_weekStart]
        exact (noResend cfg (startOfWeek i.localNow) is (cycle cfg ls i).1 hm hpw2
          (fun k hk => startOfWeek_mono (hi _ (List.mem_map_of_mem _ hk))) b hb
          hbat).symm

/-- Claim C3, witness: two cycles in the same week at the default
report minute — the first report's transport fails, yet the bucket is
marked and the second cycle attempts nothing, so the run satisfies the
at-most-once property. -/
theorem C3_witness :
    ((runTrace defaultConfig ⟨stBase, 0, some 0⟩
        [inpWeeklyAt 540 0 false, inpWeeklyAt 540 60 true]).map
        (fun l => l.weeklyAttempted) = [true, false])
    ∧ (runTrace defaultConfig ⟨stBase, 0, some 0⟩
        [inpWeeklyAt 540 0 false, inpWeeklyAt 540 60 true]).Pairwise
        (fun a b => a.weeklyAttempted = true → b.weeklyAttempted = true →
          a.weekStart ≠ b.weekStart) :=
  ⟨by decide,
   C3_weekly_at_most_once.2 defaultConfig ⟨stBase, 0, some 0⟩
     [inpWeeklyAt 540 0 false, inpWeeklyAt 540 60 true] (by decide)⟩

/-- Claim C8: when the stored bucket is absent or its
`week_start_local` differs from the current local week start,
`ensure_week_bucket` replaces the state's bucket wholesale with a
fresh bucket — current week start, all counters zero, extrema, outage
stamp and report marker null — and, since the rollover check opens
every cycle before any metric update, the bucket every cycle ends with
always carries the cycle's own current week start. -/
theorem C8_bucket_rollover (m : ℕ) (st : WatcherState) (cfg : Config)
    (ls : LoopState) (inp : CycleInput)
    (h : Option.all (fun w => w.weekStartLocal != startOfWeek m) st.weekly = true) :
    ensure_week_bucket m st = { st with weekly := some (freshBucket (startOfWeek m)) }
    ∧ (cycle cfg ls inp).1.st.weekly.map (fun w => w.weekStartLocal)
        = some (startOfWeek inp.localNow) := by
  constructor
  · cases hw : st.weekly with
    | none => simp [ensure_week_bucket, hw]
    | some w =>
        rw [hw] at h
        simp only [Option.all_some, bne_iff_ne] at h
        simp [ensure_week_bucket, hw, h]
  · exact cycle_bucket_ws cfg ls inp

/-- Claim C8, witness: a bucket from week start 0 evaluated on the
following Monday (local minute 10080) is replaced by the fresh
zeroed bucket of week start 10080, and a cycle at local minute 10085
ends with a bucket carrying that new week start. -/
theorem C8_witness :
    ensure_week_bucket 10080 stBase
        = { stBase with weekly := some (freshBucket (startOfWeek 10080)) }
    ∧ (cycle defaultConfig ⟨stBase, 0, some 0⟩
        (inpWeeklyAt 10085 0 true)).1.st.weekly.map (fun w => w.weekStartLocal)
        = some (startOfWeek 10085) :=
  C8_bucket_rollover 10080 stBase defaultConfig ⟨stBase, 0, some 0⟩
    (inpWeeklyAt 10085 0 true) (by decide)

/-- Claim C10, counterexample: on `payloadZero24` the first candidate
field `uptime_24h` is present and float-coercible with value 0, yet
`extract_uptime_ratios` skips it (Python `or` drops falsy values) and
returns the second candidate's value 50 — so the first present,
numeric-coercible candidate does not win when its value is 0. -/
theorem C10_counterexample :
    extract_uptime_ratios payloadZero24 = (some 50, none)
    ∧ tryFloat (dget (monitor_obj payloadZero24) "uptime_24h") = some 0
    ∧ (some (50 : ℚ) : Option ℚ) ≠ some 0 := by
  refine ⟨by decide, by decide, by decide⟩

/-- Claim C10, amended: both extractors are total functions of the
payload; `extract_response_time_ms` returns the first candidate field,
in the fixed order (top level, then the `stats`/`metrics` sub-object),
that is present and `int(float(.))`-coercible — including a value of 0;
`extract_uptime_ratios` instead collapses each candidate list by Python
truthiness — the first truthy candidate wins, otherwise the last
candidate's lookup result is used — and only then float-coerces, so a
falsy value such as 0 in a non-final candidate is skipped and a truthy
non-coercible value shadows later candidates. -/
theorem C10_amended (p : List (String × JVal)) :
    extract_response_time_ms p = specResponseTime p
    ∧ extract_uptime_ratios p = specUptimeRatios p := by
  constructor
  · simp only [extract_response_time_ms, specResponseTime, probeIntKeys_eq_firstSome,
      List.map]
  · simp only [extract_uptime_ratios, specUptimeRatios, pyOr_triple]
    simp only [pyOr_pair]

theorem maybe_send_bypass (cfg : Config) (st : WatcherState) (nowU : ℤ) (ok : Bool) :
    maybe_send cfg st nowU ok true =
      ⟨if ok then { st with lastAlertSentAt := some nowU } else st, true, ok⟩ := by
  cases ok <;> simp [maybe_send]

/-- Claim C1, counterexample: with `RECOVER_BYPASS_RATE_LIMIT`
disabled, a cycle that detects a Down→Up transition 500 s after the
last alert does not forward the recovery alert — it is dropped by the
rate limiter, so the bypass is not unconditional over all
configurations. -/
theorem C1_counterexample :
    (cycle cfgNoBypass ⟨stDown, 0, none⟩ inpRecover).2.upTransition = true
    ∧ (cycle cfgNoBypass ⟨stDown, 0, none⟩ inpRecover).2.recoveryFwd = false := by
  decide

/-- Claim C1, amended: whenever the `recover_bypass_rate_limit`
configuration flag is enabled (its default), every cycle that detects
a Down→Up transition forwards the recovery alert to the messaging
collaborator regardless of `last_alert_sent_at` and of
`alert_min_interval_s`, and the alert is delivered exactly when the
transport succeeds. -/
theorem C1_recovery_bypass (cfg : Config) (ls : LoopState) (inp : CycleInput)
    (hb : cfg.recoverBypassRateLimit = true)
    (ht : (cycle cfg ls inp).2.upTransition = true) :
    (cycle cfg ls inp).2.recoveryFwd = true
    ∧ (cycle cfg ls inp).2.recoveryDelivered = inp.okUp := by
  by_cases hp : inp.probeOk = true
  · simp only [cycle, hp, if_true] at ht ⊢
    simp only [cycleRun] at ht ⊢
    rw [ht]
    simp [upBlock, hb, maybe_send_bypass]
  · simp [cycle, hp] at ht

/-- Claim C1, witness: under the default configuration the same
Down→Up cycle forwards the recovery alert. -/
theorem C1_witness :
    (cycle defaultConfig ⟨stDown, 0, none⟩ inpRecover).2.recoveryFwd = true
    ∧ (cycle defaultConfig ⟨stDown, 0, none⟩ inpRecover).2.recoveryDelivered
        = inpRecover.okUp :=
  C1_recovery_bypass defaultConfig ⟨stDown, 0, none⟩ inpRecover rfl (by decide)

/-- Claim C6: with `last_alert_sent_at` set and strictly less than
`alert_min_interval_s` seconds elapsed, a non-bypass dispatch silently
drops the event — nothing is forwarded, the state (in particular
`last_alert_sent_at`) is unchanged, and nothing is persisted —
whatever the transport would have done. -/
theorem C6_rate_limited_drop (cfg : Config) (st : WatcherState) (nowU last : ℤ)
    (ok : Bool) (h1 : st.lastAlertSentAt = some last)
    (h2 : nowU - last < cfg.alertMinIntervalS * usPerSec) :
    maybe_send cfg st nowU ok false = ⟨st, false, false⟩ := by
  simp [maybe_send, rateLimited, h1, h2]

/-- Claim C6, witness: two non-bypass alerts 500 seconds apart under
the default 900-second minimum interval — the first is forwarded and
stamps `last_alert_sent_at`, the second is dropped with no side
effect, so exactly one message is delivered. -/
theorem C6_witness :
    (maybe_send defaultConfig ⟨false, 0, none, none, some (freshBucket 0), none, none⟩
        (1000 * usPerSec) true false).forwarded = true
    ∧ (maybe_send defaultConfig ⟨false, 0, none, none, some (freshBucket 0), none, none⟩
        (1000 * usPerSec) true false).st.lastAlertSentAt = some (1000 * usPerSec)
    ∧ maybe_send defaultConfig
        (maybe_send defaultConfig ⟨false, 0, none, none, some (freshBucket 0), none, none⟩
          (1000 * usPerSec) true false).st (1500 * usPerSec) true false
      = ⟨(maybe_send defaultConfig ⟨false, 0, none, none, some (freshBucket 0), none, none⟩
          (1000 * usPerSec) true false).st, false, false⟩ :=
  ⟨by decide, by decide,
   C6_rate_limited_drop defaultConfig _ (1500 * usPerSec) (1000 * usPerSec) true
     (by decide) (by decide)⟩

/-- Claim C7: a dispatch whose transport fails (`BlibsendError`)
leaves the whole state — in particular `last_alert_sent_at` —
unchanged and does not persist; a dispatch whose transport succeeds
sets `last_alert_sent_at = now_utc` exactly when it was forwarded, and
persists exactly when it was forwarded. -/
theorem C7_failure_keeps_state (cfg : Config) (st : WatcherState) (nowU : ℤ)
    (byp : Bool) :
    ((maybe_send cfg st nowU false byp).st = st
      ∧ (maybe_send cfg st nowU false byp).persisted = false)
    ∧ ((maybe_send cfg st nowU true byp).st.lastAlertSentAt =
        (if (maybe_send cfg st nowU true byp).forwarded then some nowU
         else st.lastAlertSentAt))
    ∧ ((maybe_send cfg st nowU true byp).persisted =
        (maybe_send cfg st nowU true byp).forwarded) := by
  by_cases hc : (!byp && rateLimited cfg st nowU) = true
  · simp [maybe_send, hc]
  · simp [maybe_send, hc]

/-- Claim C2, counterexample: under the default schedule (Monday
09:00, reporting enabled) the local minute 541 — Monday 09:01, one
minute past the target and well inside a 180-minute tolerance window —
does not trigger the report even on an unreported fresh bucket:
`should_send_weekly_report` demands an exact hour-and-minute match, so
no tolerance window exists. -/
theorem C2_counterexample :
    defaultConfig.weeklyReportEnabled = true
    ∧ weekdayOf 541 = defaultConfig.weeklyReportWeekday
    ∧ defaultConfig.weeklyReportHour * 60 + defaultConfig.weeklyReportMinute
        ≤ hourOf 541 * 60 + minuteOf 541
    ∧ hourOf 541 * 60 + minuteOf 541
        - (defaultConfig.weeklyReportHour * 60 + defaultConfig.weeklyReportMinute) ≤ 180
    ∧ (freshBucket 0).lastReportSentForStart = none
    ∧ should_send_weekly_report defaultConfig 541
        ⟨false, 0, none, some 0, some (freshBucket 0), none, none⟩ = false := by
  decide

/-- Claim C2, amended: `should_send_weekly_report` returns true exactly
when reporting is enabled, the current local weekday equals the target
weekday, the current local hour and minute both exactly equal the
configured target hour and minute (there is no tolerance window — any
later minute no longer triggers), and the stored bucket exists and has
not been marked reported for its `week_start_local`. -/
theorem C2_schedule_characterization (cfg : Config) (m : ℕ) (st : WatcherState) :
    should_send_weekly_report cfg m st = true ↔
      (cfg.weeklyReportEnabled = true
       ∧ weekdayOf m = cfg.weeklyReportWeekday
       ∧ hourOf m = cfg.weeklyReportHour
       ∧ minuteOf m = cfg.weeklyReportMinute
       ∧ ∃ w, st.weekly = some w ∧ w.lastReportSentForStart ≠ some w.weekStartLocal) := by
  rcases hw : st.weekly with _ | w
  · simp [should_send_weekly_report, hw, ite_self]
  · simp only [should_send_weekly_report, hw]
    by_cases h1 : cfg.weeklyReportEnabled
    · by_cases h2 : weekdayOf m = cfg.weeklyReportWeekday
      · by_cases h3 : hourOf m = cfg.weeklyReportHour
        · by_cases h4 : minuteOf m = cfg.weeklyReportMinute
          · by_cases h5 : w.lastReportSentForStart = some w.weekStartLocal
            · simp [h1, h2, h3, h4, h5]
            · simp [h1, h2, h3, h4, h5]
          · simp [h1, h2, h3, h4]
        · simp [h1, h2, h3]
      · simp [h1, h2]
    · simp [h1]

/-- Claim C2, witness: at exactly Monday 09:00 (local minute 540) on
an unreported fresh bucket, the report fires. -/
theorem C2_witness :
    should_send_weekly_report defaultConfig 540
      ⟨false, 0, none, some 0, some (freshBucket 0), none, none⟩ = true :=
  (C2_schedule_characterization defaultConfig 540
      ⟨false, 0, none, some 0, some (freshBucket 0), none, none⟩).mpr
    ⟨rfl, by decide, by decide, by decide, freshBucket 0, rfl, by decide⟩

/-- Claim C4, counterexample: a cycle whose probe reports status
"down" with a present 3000 ms response time still increments the slow
streak (to 1 here) although the probe is not "otherwise healthy" — the
code has no health condition in the slow test, so the streak does not
reset to 0 in that cycle as claimed. -/
theorem C4_counterexample :
    (cycle defaultConfig ⟨stBase, 0, some 0⟩ inpDownSlow).1.st.isDown = true
    ∧ (cycle defaultConfig ⟨stBase, 0, some 0⟩ inpDownSlow).1.slowStreak = 1 := by
  decide

/-- Claim C4, amended: in every successful cycle with a positive
`slow_ms_threshold` (the default), the streak increments exactly when
`responseTimeMs` is present and at least the threshold — regardless of
the probe's health verdict — and resets to 0 otherwise; one
`SlowResponse` alert is emitted exactly when the incremented streak
reaches `slow_consecutive`, and the streak is reset to 0 in that same
cycle. -/
theorem C4_slow_streak (cfg : Config) (ls : LoopState) (inp : CycleInput)
    (h : 0 < cfg.slowMsThreshold) (hp : inp.probeOk = true) :
    ((cycle cfg ls inp).2.slowEmitted
      = decide (cfg.slowConsecutive ≤ (if isSlowSample cfg inp.respMs then ls.slowStreak + 1 else 0)))
    ∧ ((cycle cfg ls inp).1.slowStreak
      = (if cfg.slowConsecutive ≤ (if isSlowSample cfg inp.respMs then ls.slowStreak + 1 else 0) then 0
         else if isSlowSample cfg inp.respMs then ls.slowStreak + 1 else 0)) := by
  simp only [cycle, hp, if_true, cycleRun, slowBlock]
  constructor
  · simp [h]
  · by_cases hs : cfg.slowConsecutive ≤ (if isSlowSample cfg inp.respMs then ls.slowStreak + 1 else 0)
    · simp [h, hs]
    · simp [h, hs]

/-- Claim C4, witness: with threshold 2500 ms and `slow_consecutive`
3, four successive 3000 ms samples emit exactly one slow alert — at
the third cycle — and the streak resets there, so the fourth sample
alone does not re-trigger; the theorem applied at a streak of 2
confirms the third sample's emission and reset. -/
theorem C4_witness :
    ((runTrace defaultConfig ⟨stBase, 0, some 0⟩
        [inpSlowAt 0, inpSlowAt 60, inpSlowAt 120, inpSlowAt 180]).map
        (fun l => l.slowEmitted) = [false, false, true, false])
    ∧ (((cycle defaultConfig ⟨stBase, 2, some 0⟩ (inpSlowAt 120)).2.slowEmitted
        = decide (defaultConfig.slowConsecutive
            ≤ (if isSlowSample defaultConfig (inpSlowAt 120).respMs then (2 : ℤ) + 1 else 0)))
      ∧ ((cycle defaultConfig ⟨stBase, 2, some 0⟩ (inpSlowAt 120)).1.slowStreak
        = (if defaultConfig.slowConsecutive
              ≤ (if isSlowSample defaultConfig (inpSlowAt 120).respMs then (2 : ℤ) + 1 else 0) then 0
           else if isSlowSample defaultConfig (inpSlowAt 120).respMs then (2 : ℤ) + 1 else 0))) :=
  ⟨by decide,
   C4_slow_streak defaultConfig ⟨stBase, 2, some 0⟩ (inpSlowAt 120) (by decide) rfl⟩

/-- Claim C5: the uptime-ratio cadence gate is broken.  `run_loop`
reads `last_uptime_check_at` into a local variable once, before the
loop, and never refreshes it; here, with the state's check stamp at
instant 0, the cycles at 3601 s and 3661 s both evaluate the
uptime-ratio checks although only 60 s — far less than the configured
60 minutes — separate them, and the first cycle had even refreshed the
state's own `last_uptime_check_at`. -/
theorem C5_stale_gate_eval :
    ((runTrace defaultConfig ⟨stBase, 0, some 0⟩
        [inpUptimeAt 3601, inpUptimeAt 3661]).map (fun l => l.uptimeEvaluated)
      = [true, true])
    ∧ (cycle defaultConfig ⟨stBase, 0, some 0⟩ (inpUptimeAt 3601)).1.st.lastUptimeCheckAt
        = some (3601 * usPerSec)
    ∧ (3661 - 3601 : ℤ) * usPerSec < defaultConfig.uptimeCheckEveryMinutes * 60 * usPerSec := by
  decide

/-- Claim C9: on a Down→Up transition with an outage start recorded,
`downtime_seconds` grows by exactly the floor of the elapsed time in
seconds (`int((now_utc() - started).total_seconds())`, truncation
coinciding with floor since the elapsed time is non-negative) and
`down_started_at_utc` is cleared. -/
theorem C9_downtime_accounting (st : WatcherState) (w : Weekly) (nowU started : ℤ)
    (h1 : st.weekly = some w) (h2 : w.downStartedAtUtc = some started)
    (h3 : started ≤ nowU) :
    mark_weekly_up_transition nowU st =
      { st with weekly := some (closedBucket w ⌊((nowU - started : ℤ) : ℚ) / ((1000000 : ℕ) : ℚ)⌋) } := by
  have hd : Int.tdiv (nowU - started) usPerSec
      = ⌊((nowU - started : ℤ) : ℚ) / ((1000000 : ℕ) : ℚ)⌋ := by
    rw [Rat.floor_intCast_div_natCast]
    rw [Int.tdiv_eq_ediv (by omega) (by norm_num [usPerSec])]
    norm_num [usPerSec]
  simp only [mark_weekly_up_transition, h1, h2, hd, closedBucket]

/-- Claim C9, witness: an outage of 1.5 million microseconds (1.5 s)
closed by a recovery adds exactly ⌊1.5⌋ = 1 second of downtime and
clears the outage stamp. -/
theorem C9_witness :
    mark_weekly_up_transition 1500000
        ⟨false, 0, none, none, some ⟨0, 1, 5, 0, none, none, some 0, none⟩, none, none⟩
      = ⟨false, 0, none, none,
          some (closedBucket ⟨0, 1, 5, 0, none, none, some 0, none⟩
            ⌊((1500000 - 0 : ℤ) : ℚ) / ((1000000 : ℕ) : ℚ)⌋), none, none⟩
    ∧ (⌊((1500000 - 0 : ℤ) : ℚ) / ((1000000 : ℕ) : ℚ)⌋ : ℤ) = 1 :=
  ⟨C9_downtime_accounting ⟨false, 0, none, none, some ⟨0, 1, 5, 0, none, none, some 0, none⟩, none, none⟩
      ⟨0, 1, 5, 0, none, none, some 0, none⟩ 1500000 0 rfl rfl (by decide),
   by norm_num⟩

end Watcher
